import Mathlib

/-!
Shallow embedding of `src/backend/shipment_generator_v2.py` (shipment-order
generation pipeline) and proofs about it.

Conventions of the embedding:
* Python floats are modelled as rationals (`ℚ`); `round(x, 4)` is modelled by
  `round4` and `int(x)` (truncation toward zero) by `pyTrunc`.
* A spreadsheet cell is `Cell`: `na` stands for pandas `NaN`, `num` for a
  numeric cell, `str` for a text cell.  A column that is absent from the
  sheet altogether is an `Option Cell` that is `none` (direct subscript
  access on a missing column raises `KeyError` in the source; `row.get`
  returns a default instead).
* The MySQL store is modelled as the read-only lookup tables of structure
  `DB` plus the mutable sequence counter `Option Nat` (the newest row of
  `shipment_sequence`; `none` = table empty, `some 0` = stored value that is
  falsy in Python, mirroring the `if result and result[...]` idiom).
* `hashlib.md5` (a Python standard-library primitive, not code of this
  repository) is abstracted as an arbitrary function `md5h : String → Nat`
  standing for `int(md5(s).hexdigest()[:8], 16)`; every theorem that uses it
  is quantified over `md5h`, so it holds for the actual deterministic hash.
* Wall-clock inputs (`datetime.now()`) are passed as explicit parameters
  (`DatesS` for the pickup/delivery strings, a `String × String` pair for
  the current month/day used as date-extraction fallback).
-/

/-- Python truncation toward zero, `int(q)` on a float modelled as `ℚ`. -/
def pyTrunc (q : ℚ) : Int := if 0 ≤ q then ⌊q⌋ else ⌈q⌉

/-- Rounding to 4 decimal places, modelling Python `round(x, 4)` (the tie
case, which Python resolves half-to-even, never arises in the claims; away
from ties the two rules agree). -/
def round4 (q : ℚ) : ℚ := ((round (q * 10000) : ℤ) : ℚ) / 10000

/-- One spreadsheet cell as pandas hands it to the generator. -/
inductive Cell where
  | na
  | num (q : ℚ)
  | str (s : String)
deriving DecidableEq, Repr

/-- Python whitespace for `str.strip` and the regex class `\s` (ASCII part). -/
def pyIsSpace (c : Char) : Bool :=
  c = ' ' || c = '\t' || c = '\n' || c = '\r' || c = '\x0b' || c = '\x0c'

/-- Python `str.upper` (the program only upper-cases ASCII plate codes). -/
def pyUpper (s : String) : String := String.mk (s.data.map Char.toUpper)

/-- Python `str.strip`: drop leading and trailing whitespace. -/
def pyStrip (s : String) : String :=
  String.mk (((s.data.dropWhile pyIsSpace).reverse.dropWhile pyIsSpace).reverse)

/-- Digit-string value, modelling Python `int(s)` on a string of digits. -/
def strToNat (s : String) : Nat :=
  s.data.foldl (fun n c => n * 10 + (c.toNat - 48)) 0

/-- Parse the decimal-literal subset of Python `float(s)` that the input
sheets use (optional sign, digits, optional fractional part); other float
syntax makes the source fall back to its default just like a parse failure
here. -/
def parseDecimal (s : String) : Option ℚ :=
  let cs := s.data
  let core : List Char → Option ℚ := fun l =>
    let intPart := l.takeWhile Char.isDigit
    let rest := l.dropWhile Char.isDigit
    match rest with
    | [] => if intPart.isEmpty then none else
        some ((strToNat (String.mk intPart) : ℚ))
    | '.' :: frac =>
        if frac.all Char.isDigit ∧ ¬(intPart.isEmpty ∧ frac.isEmpty) then
          some ((strToNat (String.mk intPart) : ℚ) +
            (strToNat (String.mk frac) : ℚ) / ((10 : ℚ) ^ frac.length))
        else none
    | _ => none
  match cs with
  | '-' :: rest => (core rest).map (fun q => -q)
  | '+' :: rest => core rest
  | _ => core cs

/-- Embeds `ShipmentXMLGenerator.safe_numeric_conversion`: `NaN`, empty and
unparsable cells collapse to the default, numbers pass through. -/
def safe_numeric_conversion (value : Cell) (default : ℚ) : ℚ :=
  match value with
  | Cell.na => default
  | Cell.num q => q
  | Cell.str s =>
      let t := pyStrip s
      if t = "" then default
      else match parseDecimal t with
        | some q => q
        | none => default

/-- Embeds `ShipmentXMLGenerator.safe_int_conversion`: like the numeric
conversion but truncating to an integer (`int(float(s))`). -/
def safe_int_conversion (value : Cell) (default : Int) : Int :=
  match value with
  | Cell.na => default
  | Cell.num q => pyTrunc q
  | Cell.str s =>
      let t := pyStrip s
      if t = "" then default
      else match parseDecimal t with
        | some q => pyTrunc q
        | none => default

/-- `safe_int_conversion(row.get(col), default)`: `row.get` yields `None`
for an absent column and `pd.isna(None)` is true, so `none` also collapses
to the default. -/
def safeIntOpt (value : Option Cell) (default : Int) : Int :=
  match value with
  | none => default
  | some c => safe_int_conversion c default

/-- Constants of `ShipmentXMLGenerator.__init__`. -/
def COUNTRY_CHAR : String := "BO"

/-- Default commodity code. -/
def COMMODITY_DEFAULT : String := "BO_BR"

/-- Reserved product code that denotes a pallet row. -/
def PALLET_PRODUCT_CODE : Int := 1100

/-- Fixed quantity forced onto pallet rows. -/
def PALLET_QUANTITY : Int := 24

/-- Per-unit weight constant. -/
def WEIGHT_PER_UNIT : Int := 45

/-- The read-only lookup tables of the MySQL store, one field per
`(table, column)` pair the generator queries.  `none` covers both a missing
row and a SQL `NULL` field. -/
structure DB where
  dadosNombre : Int → Option String
  envasesDescripcion : Int → Option String
  dadosCommodity : Int → Option String
  dttoPrioridad : String → Option Int
  dadosHlPorPallet : Int → Option ℚ
  envasesHlXPallet : Int → Option ℚ
  dadosBultosXPallet : Int → Option ℚ
  envasesBultosXPallet : Int → Option ℚ

/-- Python truthiness filter on a looked-up numeric field: the source guards
every rate with `if result and result[col]:`, so a rate of `0` behaves
exactly like an absent one. -/
def lookupTruthy (f : Int → Option ℚ) (code : Int) : Option ℚ :=
  match f code with
  | some r => if r = 0 then none else some r
  | none => none

/-- Embeds `DatabaseManager.get_sku_name`: primary `dados_produtos.nombre`,
then `maestro_envases.descripcion`, then a default label with the raw code. -/
def get_sku_name (db : DB) (codigoProd : Int) : String :=
  match db.dadosNombre codigoProd with
  | some n => n
  | none =>
      match db.envasesDescripcion codigoProd with
      | some d => d
      | none => "PRODUCTO_" ++ toString codigoProd

/-- Embeds `DatabaseManager.get_commodity`: the stored commodity is used
only when non-empty (`if result and result[...]`), else the default. -/
def get_commodity (db : DB) (codigoProd : Int) : String :=
  match db.dadosCommodity codigoProd with
  | some s => if s = "" then COMMODITY_DEFAULT else s
  | none => COMMODITY_DEFAULT

/-- Route key `"BO_{origen}-BO_{destino}"` used by the priority lookup. -/
def rutaKey (origen destino : Int) : String :=
  COUNTRY_CHAR ++ "_" ++ toString origen ++ "-" ++ COUNTRY_CHAR ++ "_" ++ toString destino

/-- Embeds `DatabaseManager.get_priority`: exact ordered route key first,
then the reversed key, defaulting to 1. -/
def get_priority (db : DB) (origen destino : Int) : Int :=
  match db.dttoPrioridad (rutaKey origen destino) with
  | some p => p
  | none =>
      match db.dttoPrioridad (rutaKey destino origen) with
      | some p => p
      | none => 1

/-- Embeds `DatabaseManager.get_hectolitros`: primary per-pallet rate from
`dados_produtos.hl_por_pallet`, fallback `maestro_envases.hl_x_pallet`,
result `round(rate * pallets, 4)`, else 0. -/
def get_hectolitros (db : DB) (codigoProd : Int) (pallets : ℚ) : ℚ :=
  match lookupTruthy db.dadosHlPorPallet codigoProd with
  | some r => round4 (r * pallets)
  | none =>
      match lookupTruthy db.envasesHlXPallet codigoProd with
      | some r => round4 (r * pallets)
      | none => 0

/-- Embeds `DatabaseManager.get_bultos`: primary rate from
`dados_produtos.bultos_x_pallet`, fallback `maestro_envases`, result
`int(rate) * int(pallets)` (each factor truncated separately), else 0. -/
def get_bultos (db : DB) (codigoProd : Int) (pallets : ℚ) : Int :=
  match lookupTruthy db.dadosBultosXPallet codigoProd with
  | some r => pyTrunc r * pyTrunc pallets
  | none =>
      match lookupTruthy db.envasesBultosXPallet codigoProd with
      | some r => pyTrunc r * pyTrunc pallets
      | none => 0

/-- Embeds the success path of `DatabaseManager.get_next_reference_number`.
The state is the newest `shipment_sequence` row (`none` when the table holds
no record).  A stored `0` is falsy in Python and takes the initialisation
branch, exactly like an absent record.  The storage-failure fallback path
(timestamp-based identifier) is an interaction with the external clock and
is outside this state-transition model. -/
def get_next_reference_number (store : Option Nat) : Option Nat × String :=
  match store with
  | some v =>
      if v ≠ 0 then (some (v + 1), toString (v + 1))
      else (some 11111, "11111")
  | none => (some 11111, "11111")

/-- Rendering of a cell as a Python f-string interpolates it.  Rationals are
rendered canonically; what the claims rely on is that equal cells render to
equal strings, which holds for Python `str()` as well. -/
def pyStr : Cell → String
  | Cell.na => "nan"
  | Cell.num q =>
      if q.den = 1 then toString q.num
      else toString q.num ++ "/" ++ toString q.den
  | Cell.str s => s

/-- One row of the Consolidado sheet.  A field that is `none` models a
column missing from the sheet (subscript access raises `KeyError`); a field
that is `some Cell.na` models a present-but-empty cell. -/
structure Row where
  codEnvio : Option Cell := none
  codProd : Option Cell := none
  pallets : Option Cell := none
  fecha : Option Cell := none
  pesoTotal : Option Cell := none
  codOrigen : Option Cell := none
  codDestino : Option Cell := none
  operadorLogistico : Option Cell := none
  viaje : Option Cell := none
  palletRet : Option Cell := none
deriving DecidableEq, Repr

/-- `row_data.get(col, "")` as used when building the shipment number. -/
def cellStr (c : Option Cell) : String :=
  match c with
  | none => ""
  | some v => pyStr v

/-- Embeds `ShipmentXMLGenerator.generate_shipment_number`: hash of the
string `"{envio}-{prod}-{origen}-{destino}-{index}"` mapped into the fixed
range `2226500000 + h % 999999` and prefixed with the country code.  `md5h`
stands for `int(hashlib.md5(s).hexdigest()[:8], 16)`. -/
def generate_shipment_number (md5h : String → Nat) (rowData : Row) (index : Nat) : String :=
  let uniqueString :=
    cellStr rowData.codEnvio ++ "-" ++ cellStr rowData.codProd ++ "-" ++
    cellStr rowData.codOrigen ++ "-" ++ cellStr rowData.codDestino ++ "-" ++
    toString index
  let hashShort := md5h uniqueString
  let finalNumber := 2226500000 + hashShort % 999999
  COUNTRY_CHAR ++ toString finalNumber

/-- Lexicographic code-point order on character lists, the order Python
uses to compare strings. -/
def charListLt : List Char → List Char → Bool
  | [], [] => false
  | [], _ :: _ => true
  | _ :: _, [] => false
  | a :: as, b :: bs => if a < b then true else if b < a then false else charListLt as bs

/-- Strict string order of Python (`s < t`). -/
def strLtB (s t : String) : Bool := charListLt s.data t.data

/-- String order used to model Python `list.sort()` on route keys
(`s ≤ t` is `¬ t < s` for this total order). -/
def strLeB (s t : String) : Bool := !(charListLt t.data s.data)

/-- Insert into a list sorted by `le`. -/
def insertLe (le : α → α → Bool) (a : α) : List α → List α
  | [] => [a]
  | b :: rest => if le a b then a :: b :: rest else b :: insertLe le a rest

/-- Insertion sort by `le`; models the sorting steps of the source (which
only ever sorts lists whose ties are fully equal elements, so any sorting
algorithm produces the same roster). -/
def sortLe (le : α → α → Bool) : List α → List α
  | [] => []
  | a :: rest => insertLe le a (sortLe le rest)

/-- Embeds `generate_unique_route_correlative`: collect the distinct
`"{origen}-{destino}"` keys of all rows sharing the trip number, sort them,
and return `viaje * 100 + (1-based rank of this row's key)`. -/
def generate_unique_route_correlative (viajeNumber origen destino : Int)
    (allShipments : List Row) : Int :=
  let viajeRoutes := allShipments.foldl
    (fun acc s =>
      let shipViaje := safeIntOpt s.viaje 0
      let shipOrigen := safeIntOpt s.codOrigen 0
      let shipDestino := safeIntOpt s.codDestino 0
      if shipViaje = viajeNumber then
        let routeKey := toString shipOrigen ++ "-" ++ toString shipDestino
        if routeKey ∈ acc then acc else acc ++ [routeKey]
      else acc) []
  let sorted := sortLe strLeB viajeRoutes
  let currentRoute := toString origen ++ "-" ++ toString destino
  let routeIndex : Nat :=
    match sorted.findIdx? (fun k => k = currentRoute) with
    | some i => i + 1
    | none => 1
  viajeNumber * 100 + (routeIndex : Int)

/-- Python `==` between a cell fetched with `.get` (option) and a cell value:
`None` compares unequal to everything, `NaN == NaN` is false, and values of
different types compare unequal. -/
def pyEqCell (a : Option Cell) (b : Cell) : Bool :=
  match a, b with
  | some (Cell.num x), Cell.num y => x = y
  | some (Cell.str x), Cell.str y => x = y
  | _, _ => false

/-- Embeds `DatabaseManager.get_sku_per_truck_count`: occurrences of the
shipment id in the whole manifest, with 0 promoted to 1. -/
def get_sku_per_truck_count (shipmentId : Cell) (allShipments : List Row) : Nat :=
  let count := (allShipments.filter (fun s => pyEqCell s.codEnvio shipmentId)).length
  if count > 0 then count else 1

/-- Embeds `ShipmentXMLGenerator.process_weight`:
`base_weight + quantity * WEIGHT_PER_UNIT` (its `except` arm is unreachable
for numeric inputs). -/
def process_weight (baseWeight : ℚ) (quantity : Int) : ℚ :=
  baseWeight + (quantity : ℚ) * (WEIGHT_PER_UNIT : ℚ)

/-- The four pickup/delivery strings produced by `calculate_dates` from the
processing-time clock; datetime formatting is external input here. -/
structure DatesS where
  pickupFrom : String := ""
  pickupTo : String := ""
  deliveryFrom : String := ""
  deliveryTo : String := ""
deriving DecidableEq, Repr

/-- One output record of the 20-column layout. -/
structure Rec where
  type : String
  shipmentNumber : Cell
  shipmentDescription : Cell
  commodity : Cell
  priority : Cell
  originLocation : Cell
  destinationLocation : Cell
  pickupFrom : Cell
  pickupTo : Cell
  deliveryFrom : Cell
  deliveryTo : Cell
  carrier : Cell
  service : Cell
  referenceNumberType : Cell
  referenceNumber : Cell
  quantity : Cell
  weight : Cell
  hectolitros : Cell
  bultos : Cell
  pallets : Cell
deriving DecidableEq, Repr

/-- The run-scoped `validation_stats` accumulator. -/
structure Stats where
  total_records : Nat := 0
  header_records : Nat := 0
  detail_records : Nat := 0
  priority_conversions : List (String × Nat) := []
  reference_numbers_generated : List String := []
  database_queries : Nat := 0
  errors : List String := []
deriving DecidableEq, Repr

/-- Fresh statistics, as `__init__` creates them. -/
def initStats : Stats := {}

/-- Append one row-level error message. -/
def addError (s : Stats) (msg : String) : Stats :=
  { s with errors := s.errors ++ [msg] }

/-- Increment the per-priority histogram entry, inserting it at zero first
when absent (the two-step `dict` update of the source). -/
def bumpKey : List (String × Nat) → String → List (String × Nat)
  | [], k => [(k, 1)]
  | (k', n) :: rest, k =>
      if k' = k then (k', n + 1) :: rest else (k', n) :: bumpKey rest k

/-- A detail record before its type-specific fields are filled in: the
source writes every field of each detail dict explicitly, almost all of them
the empty string. -/
def emptyDetail : Rec :=
  { type := "D", shipmentNumber := Cell.str "", shipmentDescription := Cell.str "",
    commodity := Cell.str "", priority := Cell.str "", originLocation := Cell.str "",
    destinationLocation := Cell.str "", pickupFrom := Cell.str "", pickupTo := Cell.str "",
    deliveryFrom := Cell.str "", deliveryTo := Cell.str "", carrier := Cell.str "",
    service := Cell.str "", referenceNumberType := Cell.str "", referenceNumber := Cell.str "",
    quantity := Cell.str "", weight := Cell.str "", hectolitros := Cell.str "",
    bultos := Cell.str "", pallets := Cell.str "" }

/-- The body of `process_record` after the direct column accesses have
succeeded: resolves master data, allocates the reference number, applies the
pallet override, and emits the 1 header + 3 detail group while updating the
statistics.  Everything here is total — no statement in this region of the
source can raise. -/
def emitRecord (db : DB) (md5h : String → Nat) (dates : DatesS) (row : Row)
    (index : Nat) (allShipments : List Row) (store : Option Nat) (stats : Stats)
    (cols : Cell × Cell × Cell × Cell × Cell × Cell) :
    List Rec × Option Nat × Stats :=
  match cols with
  | (cCodProd, cPallets, cPeso, cOrigen, cDestino, cOperador) =>
    let viajeNumber := safeIntOpt row.viaje ((index : Int) + 1)
    let codeProd := safe_int_conversion cCodProd 0
    let quantity := safe_int_conversion cPallets 1
    let baseWeight := safe_numeric_conversion cPeso 0
    let origen := safe_int_conversion cOrigen 1
    let destino := safe_int_conversion cDestino 1
    let _carrier := match cOperador with
      | Cell.na => ""
      | c => pyStr c
    let shipmentId := row.codEnvio.getD (Cell.str "")
    let skuName := get_sku_name db codeProd
    let priorityNumeric := get_priority db origen destino
    let commodity := get_commodity db codeProd
    let hectolitros := get_hectolitros db codeProd (quantity : ℚ)
    let bultos := get_bultos db codeProd (quantity : ℚ)
    let _skuPerTruck := get_sku_per_truck_count shipmentId allShipments
    let refPair := get_next_reference_number store
    let stats1 := { stats with
      database_queries := stats.database_queries + 5,
      reference_numbers_generated := stats.reference_numbers_generated ++ [refPair.2],
      priority_conversions := bumpKey stats.priority_conversions (toString priorityNumeric) }
    let quantity2 := if codeProd = PALLET_PRODUCT_CODE then PALLET_QUANTITY else quantity
    let _uniqueRouteId := generate_unique_route_correlative viajeNumber origen destino allShipments
    let shipmentNumber := generate_shipment_number md5h row index
    let totalWeight := process_weight baseWeight quantity2
    let _lane := rutaKey origen destino
    let palletRetCell : Cell := match row.palletRet with
      | none => Cell.str ""
      | some Cell.na => Cell.str ""
      | some c => c
    let palletRetStr := if palletRetCell = Cell.str "" then "" else pyStr palletRetCell
    let headerRecord : Rec :=
      { type := "H", shipmentNumber := Cell.str shipmentNumber,
        shipmentDescription := Cell.str skuName, commodity := Cell.str commodity,
        priority := Cell.num (priorityNumeric : ℚ),
        originLocation := Cell.str (COUNTRY_CHAR ++ "_" ++ toString origen),
        destinationLocation := Cell.str (COUNTRY_CHAR ++ "_" ++ toString destino),
        pickupFrom := Cell.str dates.pickupFrom, pickupTo := Cell.str dates.pickupTo,
        deliveryFrom := Cell.str dates.deliveryFrom, deliveryTo := Cell.str dates.deliveryTo,
        carrier := Cell.str "", service := Cell.str "",
        referenceNumberType := Cell.str "SALES_ORDER",
        referenceNumber := Cell.str refPair.2,
        quantity := Cell.str "", weight := Cell.str "", hectolitros := Cell.str "",
        bultos := Cell.str "", pallets := Cell.str "" }
    let detail1 : Rec := { emptyDetail with
        referenceNumberType := Cell.str "CODE_PROD",
        referenceNumber := Cell.num (codeProd : ℚ) }
    let detail2 : Rec := { emptyDetail with
        referenceNumberType := Cell.str "PALLET_RET",
        referenceNumber := Cell.str palletRetStr }
    let detail3 : Rec := { emptyDetail with
        quantity := Cell.num (quantity2 : ℚ),
        weight := Cell.num totalWeight,
        hectolitros := Cell.num hectolitros,
        bultos := Cell.num (bultos : ℚ) }
    let records := [headerRecord, detail1, detail2, detail3]
    let stats2 := { stats1 with
      header_records := stats1.header_records + 1,
      detail_records := stats1.detail_records + 3,
      total_records := stats1.total_records + records.length }
    (records, refPair.1, stats2)

/-- The direct column accesses of `process_record`, in source order; the
first missing column aborts the row with its `KeyError` (Python renders the
message with quotes around the column name; the quotes are cosmetic and
omitted here). -/
def extractCols (row : Row) :
    Except String (Cell × Cell × Cell × Cell × Cell × Cell) :=
  match row.codProd with
  | none => Except.error "Cód. Prod"
  | some cCodProd =>
  match row.pallets with
  | none => Except.error "Pallets"
  | some cPallets =>
  match row.pesoTotal with
  | none => Except.error "Peso Total Carga"
  | some cPeso =>
  match row.codOrigen with
  | none => Except.error "Cód. Origen"
  | some cOrigen =>
  match row.codDestino with
  | none => Except.error "Cód. Destino"
  | some cDestino =>
  match row.operadorLogistico with
  | none => Except.error "Operador Logístico"
  | some cOperador =>
    Except.ok (cCodProd, cPallets, cPeso, cOrigen, cDestino, cOperador)

/-- Embeds `ShipmentXMLGenerator.process_record`: on success the 4-record
group plus the updated sequence state and statistics; on an unrecoverable
row-level exception the `except` arm appends the row's error message to the
statistics and re-raises (the error value carries the message and the
updated statistics).  All fallible statements precede every statistics or
record mutation, so a failed row never leaves a partial group behind. -/
def process_record (db : DB) (md5h : String → Nat) (dates : DatesS) (row : Row)
    (index : Nat) (_shipNum : Int) (allShipments : List Row)
    (store : Option Nat) (stats : Stats) :
    Except (String × Stats) (List Rec × Option Nat × Stats) :=
  match extractCols row with
  | Except.error e =>
      Except.error (e, addError stats ("Error registro " ++ toString index ++ ": " ++ e))
  | Except.ok cols =>
      Except.ok (emitRecord db md5h dates row index allShipments store stats cols)

/-- The per-row loop of `process_all_data`: each row is processed
independently; a row failure is caught and the loop continues with the next
row, leaving the accumulated record set untouched. -/
def processLoop (db : DB) (md5h : String → Nat) (dates : DatesS)
    (allShipments : List Row) (shipNum : Int) :
    List Row → Nat → Option Nat → Stats → List Rec →
    List Rec × Option Nat × Stats
  | [], _, store, stats, data => (data, store, stats)
  | r :: rest, i, store, stats, data =>
      match process_record db md5h dates r i shipNum allShipments store stats with
      | Except.ok (recs, store', stats') =>
          processLoop db md5h dates allShipments shipNum rest (i + 1) store' stats' (data ++ recs)
      | Except.error (_, stats') =>
          processLoop db md5h dates allShipments shipNum rest (i + 1) store stats' data

/-- Embeds `ShipmentXMLGenerator.process_all_data` for a freshly initialised
generator: iterate all loaded rows from empty accumulators.  (The uniqueness
pre-check of the source only counts distinct shipment ids and always
succeeds on loaded data; `ship_num` is the wall-clock base number, unused by
the emitted records.) -/
def process_all_data (db : DB) (md5h : String → Nat) (dates : DatesS)
    (shipNum : Int) (rows : List Row) (store : Option Nat) :
    List Rec × Option Nat × Stats :=
  processLoop db md5h dates rows shipNum rows 0 store initStats []

/-- Match a literal character sequence at the head of the input, returning
the remainder. -/
def matchLit : List Char → List Char → Option (List Char)
  | [], cs => some cs
  | p :: ps, c :: cs => if c = p then matchLit ps cs else none
  | _ :: _, [] => none

/-- Match exactly `n` digits at the head of the input. -/
def grabDigits : Nat → List Char → Option (String × List Char)
  | 0, cs => some ("", cs)
  | n + 1, c :: cs =>
      if c.isDigit then
        match grabDigits n cs with
        | some (s, rest) => some (String.mk [c] ++ s, rest)
        | none => none
      else none
  | _ + 1, [] => none

/-- Match `(\d{1,2})<sep>(\d{1,2})` followed by `post`, with the regex
engine's greedy backtracking order on the two group lengths:
`(2,2), (2,1), (1,2), (1,1)`. -/
def matchPairThen (sep : Char) (post : List Char → Option Unit)
    (cs : List Char) : Option (String × String) :=
  let attempt : Nat → Nat → Option (String × String) := fun i j =>
    match grabDigits i cs with
    | none => none
    | some (d, cs1) =>
        match cs1 with
        | c :: cs2 =>
            if c = sep then
              match grabDigits j cs2 with
              | none => none
              | some (m, cs3) =>
                  match post cs3 with
                  | some _ => some (d, m)
                  | none => none
            else none
        | [] => none
  match attempt 2 2 with
  | some r => some r
  | none =>
      match attempt 2 1 with
      | some r => some r
      | none =>
          match attempt 1 2 with
          | some r => some r
          | none => attempt 1 1

/-- The `_\d{4}_` suffix of the SD pattern (`{4}` is an exact count, so no
backtracking is possible in it). -/
def sdPost (cs : List Char) : Option Unit :=
  match cs with
  | '_' :: cs1 =>
      match grabDigits 4 cs1 with
      | some (_, cs2) =>
          match cs2 with
          | '_' :: _ => some ()
          | _ => none
      | none => none
  | _ => none

/-- Match `\s+` (one or more whitespace): greedily consume the whole run.
Since every continuation in the patterns using it starts with a
non-whitespace character, the greedy run is equivalent to the backtracking
semantics. -/
def grabSpaces1 (cs : List Char) : Option (List Char) :=
  match cs with
  | c :: rest => if pyIsSpace c then some (rest.dropWhile pyIsSpace) else none
  | [] => none

/-- Pattern 1 anchored at a position:
`Programa_SD_(\d{1,2})_(\d{1,2})_\d{4}_`. -/
def matchSDAt (cs : List Char) : Option (String × String) :=
  match matchLit "Programa_SD_".data cs with
  | none => none
  | some cs1 => matchPairThen '_' sdPost cs1

/-- Pattern 2 anchored at a position: `Envíos\s+CBs?\s+(\d{1,2})-(\d{1,2})`.
The optional `s` is consumed greedily; backtracking over it can never help
because the following `\s+` cannot match the letter `s`. -/
def matchCBAt (cs : List Char) : Option (String × String) :=
  match matchLit "Envíos".data cs with
  | none => none
  | some cs1 =>
      match grabSpaces1 cs1 with
      | none => none
      | some cs2 =>
          match matchLit "CB".data cs2 with
          | none => none
          | some cs3 =>
              let cs4 := match cs3 with
                | 's' :: rest => rest
                | _ => cs3
              match grabSpaces1 cs4 with
              | none => none
              | some cs5 => matchPairThen '-' (fun _ => some ()) cs5

/-- Pattern 3 anchored at a position: the generic `(\d{1,2})_(\d{1,2})`. -/
def matchGenAt (cs : List Char) : Option (String × String) :=
  matchPairThen '_' (fun _ => some ()) cs

/-- `re.search`: try the anchored matcher at every position, leftmost first. -/
def searchAux (m : List Char → Option α) : List Char → Option α
  | [] => m []
  | l@(_ :: rest) =>
      match m l with
      | some r => some r
      | none => searchAux m rest

/-- `re.search` of pattern 1 over a file name. -/
def searchSD (fileName : String) : Option (String × String) :=
  searchAux matchSDAt fileName.data

/-- `re.search` of pattern 2 over a file name. -/
def searchCB (fileName : String) : Option (String × String) :=
  searchAux matchCBAt fileName.data

/-- `re.search` of pattern 3 over a file name. -/
def searchGeneric (fileName : String) : Option (String × String) :=
  searchAux matchGenAt fileName.data

/-- The shared pattern cascade of both date extractors: SD first, then CB,
then the generic pattern; the first pattern that matches anywhere wins and
yields its raw `(day, month)` groups. -/
def findFirstDate (fileName : String) : Option (String × String) :=
  match searchSD fileName with
  | some dm => some dm
  | none =>
      match searchCB fileName with
      | some dm => some dm
      | none => searchGeneric fileName

/-- Python `str.zfill(2)` on a digit group. -/
def zfill2 (s : String) : String := if s.length ≥ 2 then s else "0" ++ s

/-- The range validation `1 <= day <= 31 and 1 <= month <= 12`. -/
def dateOkB (day month : Nat) : Bool :=
  1 ≤ day && day ≤ 31 && 1 ≤ month && month ≤ 12

/-- Embeds `ShipmentXMLGenerator.extract_date_from_filename` applied to the
base name of the input path.  `now` is the current `(month, day)` pair from
the wall clock.  The single validation runs after the pattern cascade has
picked its first match: an out-of-range match raises and lands in the
current-date fallback — no later pattern is retried. -/
def extract_date_from_filename (now : String × String) (fileName : String) :
    String × String :=
  match findFirstDate fileName with
  | none => now
  | some (d, m) =>
      let day := zfill2 d
      let month := zfill2 m
      if dateOkB (strToNat day) (strToNat month) then (month, day) else now

/-- Embeds the module-level `extract_date_from_input_file` (availability
path, applied to the base name): the same pattern cascade and zero-padding,
but no range validation at all, and `(None, None)` — modelled as `none` —
when no pattern matches. -/
def extract_date_from_input_file (fileName : String) : Option (String × String) :=
  match findFirstDate fileName with
  | none => none
  | some (d, m) => some (zfill2 m, zfill2 d)

/-- One entry of the plate roster. -/
structure PlacaInfo where
  origen : String
  placa : String
  reusable : Nat
deriving DecidableEq, Repr

/-- The composite dedup key of the final merge:
`placa.upper() + "_" + origen.strip()`. -/
def claveUnica (p : PlacaInfo) : String :=
  pyUpper p.placa ++ "_" ++ pyStrip p.origen

/-- The dedup loop of `generate_validated_plates_excel` (PASO 5): walk the
concatenated list, keep an entry when its key is unseen, record the key. -/
def dedupAux (seen : List String) : List PlacaInfo → List PlacaInfo
  | [] => []
  | p :: rest =>
      if claveUnica p ∈ seen then dedupAux seen rest
      else p :: dedupAux (claveUnica p :: seen) rest

/-- PASO 4 + PASO 5 of `generate_validated_plates_excel`: concatenate
Source A (DB-qualified plates) then Source B (external availability), then
deduplicate with first-occurrence-wins. -/
def combinar_placas (placasBd placasExternas : List PlacaInfo) : List PlacaInfo :=
  dedupAux [] (placasBd ++ placasExternas)

/-- Order used by the final `sort_values(["Origen", "Placa"])`. -/
def placaLeB (p q : PlacaInfo) : Bool :=
  strLtB p.origen q.origen || (p.origen == q.origen && strLeB p.placa q.placa)

/-- PASO 6: the final roster, sorted by (origin, plate).  Both sources
normalise plates/origins before the merge, so elements that tie under the
order are fully equal and any sorting algorithm yields the same roster. -/
def placasRoster (placasBd placasExternas : List PlacaInfo) : List PlacaInfo :=
  sortLe placaLeB (combinar_placas placasBd placasExternas)

/-- Lookup-table fixture with no stored data at all. -/
def dbNull : DB :=
  { dadosNombre := fun _ => none, envasesDescripcion := fun _ => none,
    dadosCommodity := fun _ => none, dttoPrioridad := fun _ => none,
    dadosHlPorPallet := fun _ => none, envasesHlXPallet := fun _ => none,
    dadosBultosXPallet := fun _ => none, envasesBultosXPallet := fun _ => none }

/-- Lookup-table fixture with a single stored priority on the ordered key
`3 → 4`, for the C4 witness. -/
def dbC4 : DB :=
  { dbNull with dttoPrioridad := fun s => if s = rutaKey 3 4 then some 7 else none }

/-- Lookup-table fixture for C7: a zero primary hectoliter rate shadowing a
nonzero secondary rate at code 7, a fractional primary bultos rate at
code 5, and nonzero fractional primary rates at code 1. -/
def dbC7 : DB :=
  { dbNull with
    dadosHlPorPallet := fun c =>
      if c = 7 then some 0 else if c = 1 then some (7/2) else none,
    envasesHlXPallet := fun c => if c = 7 then some 2 else none,
    dadosBultosXPallet := fun c =>
      if c = 5 then some (5/2) else if c = 1 then some (7/2) else none }

/-- Lookup-table fixture with per-pallet rates stored for the reserved
pallet product code 1100. -/
def dbC10 : DB :=
  { dbNull with
    dadosHlPorPallet := fun c => if c = 1100 then some (3/2) else none,
    dadosBultosXPallet := fun c => if c = 1100 then some 6 else none }

/-- A fully populated pallet-product row: code 1100, 5 stated pallets. -/
def rowC8 : Row :=
  { codEnvio := some (Cell.str "E1"), codProd := some (Cell.num 1100),
    pallets := some (Cell.num 5), fecha := some Cell.na,
    pesoTotal := some (Cell.num 100), codOrigen := some (Cell.num 1),
    codDestino := some (Cell.num 2), operadorLogistico := some (Cell.str "OP"),
    viaje := some (Cell.num 1), palletRet := none }

/-- The successful processing result of `rowC8`, used to state closed
instances of the per-record theorems. -/
def outC8 : List Rec × Option Nat × Stats :=
  match process_record dbNull (fun _ => 0) {} rowC8 0 0 [rowC8] none initStats with
  | Except.ok out => out
  | Except.error _ => ([], none, initStats)

/-- A pallet-product row with 7 stated pallets and a returnable-pallet tag. -/
def rowC10 : Row :=
  { rowC8 with pallets := some (Cell.num 7), palletRet := some (Cell.str "SI") }

/-- The successful processing result of `rowC10` against `dbC10`. -/
def outC10 : List Rec × Option Nat × Stats :=
  match process_record dbC10 (fun _ => 0) {} rowC10 2 0 [rowC10] (some 11111) initStats with
  | Except.ok out => out
  | Except.error _ => ([], none, initStats)

/-- A row read from a sheet missing every processed column: its first direct
column access raises `KeyError`. -/
def rowC9 : Row := {}

/-- A two-row manifest: one processable row and one failing row. -/
def rowsC1 : List Row := [rowC8, rowC9]

/-- Source-A (DB-qualified) plate list with an internal duplicate key. -/
def bdC5 : List PlacaInfo := [⟨"1", "AAA", 0⟩, ⟨"1", "AAA", 0⟩]

/-- Source-B (external availability) plate list that repeats the Source-A
key in different letter case and adds a fresh plate. -/
def extC5 : List PlacaInfo := [⟨"1", "aaa", 0⟩, ⟨"2", "BBB", 0⟩]

/-- C2: ShipmentNumber generation is a pure, deterministic function of the
tuple (shipment identifier, product code, origin, destination, row index):
two rows that agree on those four fields produce the same shipment number at
the same index, for every (deterministic) hash function, regardless of every
other row field — and, being a pure function of these arguments alone, it
can depend neither on wall-clock time nor on prior state. -/
theorem C2_shipment_number_deterministic (md5h : String → Nat) (r1 r2 : Row) (index : Nat)
    (hEnvio : r1.codEnvio = r2.codEnvio) (hProd : r1.codProd = r2.codProd)
    (hOrigen : r1.codOrigen = r2.codOrigen) (hDestino : r1.codDestino = r2.codDestino) :
    generate_shipment_number md5h r1 index = generate_shipment_number md5h r2 index := by
  simp only [generate_shipment_number, hEnvio, hProd, hOrigen, hDestino]

/-- Witness for C2 at two concrete rows differing in pallet count, total
weight and carrier. -/
theorem C2_shipment_number_deterministic_witness :
    generate_shipment_number (fun s => s.length)
      { codEnvio := some (Cell.str "E1"), codProd := some (Cell.num 5),
        codOrigen := some (Cell.num 7), codDestino := some (Cell.num 9),
        pallets := some (Cell.num 10) } 3
    = generate_shipment_number (fun s => s.length)
      { codEnvio := some (Cell.str "E1"), codProd := some (Cell.num 5),
        codOrigen := some (Cell.num 7), codDestino := some (Cell.num 9),
        pallets := some (Cell.num 99), pesoTotal := some (Cell.num 1),
        operadorLogistico := some (Cell.str "OP") } 3 :=
  C2_shipment_number_deterministic (fun s => s.length) _ _ 3 rfl rfl rfl rfl

/-- C3: from an empty counter store three sequential allocations return
"11111", "11112", "11113"; an absent counter record is initialised to the
seed 11111 which is also returned; and a stored value `v` from a previous
successful call yields `v + 1`, stored and returned. -/
theorem C3_sequence_allocator (v : Nat) (hv : 11111 ≤ v) :
    (get_next_reference_number none).2 = "11111"
    ∧ (get_next_reference_number (get_next_reference_number none).1).2 = "11112"
    ∧ (get_next_reference_number
        (get_next_reference_number (get_next_reference_number none).1).1).2 = "11113"
    ∧ get_next_reference_number none = (some 11111, "11111")
    ∧ get_next_reference_number (some v) = (some (v + 1), toString (v + 1)) := by
  refine ⟨by decide, by decide, by decide, by decide, ?_⟩
  have hv0 : v ≠ 0 := by omega
  simp [get_next_reference_number, hv0]

/-- Witness for C3 at the stored value 11111. -/
theorem C3_sequence_allocator_witness :
    11111 ≤ 11111
    ∧ ((get_next_reference_number none).2 = "11111"
      ∧ (get_next_reference_number (get_next_reference_number none).1).2 = "11112"
      ∧ (get_next_reference_number
          (get_next_reference_number (get_next_reference_number none).1).1).2 = "11113"
      ∧ get_next_reference_number none = (some 11111, "11111")
      ∧ get_next_reference_number (some 11111) = (some (11111 + 1), toString (11111 + 1))) :=
  ⟨by decide, C3_sequence_allocator 11111 (by decide)⟩

/-- C4: priority resolution is symmetric when at most one directional key is
stored: with exactly one of the keys A→B / B→A present both lookup
directions return the stored value, and with neither present both return 1. -/
theorem C4_priority_symmetric (db : DB) (a b : Int) :
    (∀ v : Int,
      ((db.dttoPrioridad (rutaKey a b) = some v ∧ db.dttoPrioridad (rutaKey b a) = none) ∨
       (db.dttoPrioridad (rutaKey a b) = none ∧ db.dttoPrioridad (rutaKey b a) = some v)) →
      get_priority db a b = v ∧ get_priority db b a = v)
    ∧ ((db.dttoPrioridad (rutaKey a b) = none ∧ db.dttoPrioridad (rutaKey b a) = none) →
      get_priority db a b = 1 ∧ get_priority db b a = 1) := by
  constructor
  · rintro v (⟨h1, h2⟩ | ⟨h1, h2⟩) <;> simp [get_priority, h1, h2]
  · rintro ⟨h1, h2⟩
    simp [get_priority, h1, h2]

/-- Witness for C4: the fixture stores only the ordered key 3→4 with
priority 7; both directions resolve to 7, and the unstored pair (5, 6)
resolves to 1 both ways. -/
theorem C4_priority_symmetric_witness :
    (get_priority dbC4 3 4 = 7 ∧ get_priority dbC4 4 3 = 7)
    ∧ (get_priority dbC4 5 6 = 1 ∧ get_priority dbC4 6 5 = 1) :=
  ⟨(C4_priority_symmetric dbC4 3 4).1 7 (Or.inl ⟨by decide, by decide⟩),
   (C4_priority_symmetric dbC4 5 6).2 ⟨by decide, by decide⟩⟩

/-- Every entry the dedup loop keeps comes from its input list. -/
theorem dedupAux_subset (l : List PlacaInfo) : ∀ (seen : List String) (p : PlacaInfo),
    p ∈ dedupAux seen l → p ∈ l := by
  induction l with
  | nil => intro seen p hp; simp [dedupAux] at hp
  | cons q rest ih =>
      intro seen p hp
      by_cases hq : claveUnica q ∈ seen
      · simp only [dedupAux, if_pos hq] at hp
        exact List.mem_cons_of_mem _ (ih _ _ hp)
      · simp only [dedupAux, if_neg hq, List.mem_cons] at hp
        rcases hp with h | h
        · exact h ▸ List.mem_cons_self _ _
        · exact List.mem_cons_of_mem _ (ih _ _ h)

/-- The key of every kept entry was unseen when the loop started. -/
theorem dedupAux_key_not_seen (l : List PlacaInfo) : ∀ (seen : List String) (p : PlacaInfo),
    p ∈ dedupAux seen l → claveUnica p ∉ seen := by
  induction l with
  | nil => intro seen p hp; simp [dedupAux] at hp
  | cons q rest ih =>
      intro seen p hp
      by_cases hq : claveUnica q ∈ seen
      · simp only [dedupAux, if_pos hq] at hp
        exact ih _ _ hp
      · simp only [dedupAux, if_neg hq, List.mem_cons] at hp
        rcases hp with h | h
        · exact h ▸ hq
        · intro hmem
          exact ih _ _ h (List.mem_cons_of_mem _ hmem)

/-- Exactly one entry per key survives the dedup loop: zero when the key was
already seen, one when the input contains the key, zero otherwise. -/
theorem dedupAux_countP (k : String) (l : List PlacaInfo) : ∀ (seen : List String),
    (dedupAux seen l).countP (fun p => claveUnica p == k)
      = if k ∈ seen then 0
        else if l.any (fun p => claveUnica p == k) then 1 else 0 := by
  induction l with
  | nil => intro seen; simp [dedupAux]
  | cons q rest ih =>
      intro seen
      by_cases hq : claveUnica q ∈ seen
      · rw [show dedupAux seen (q :: rest) = dedupAux seen rest by
          simp [dedupAux, hq], ih seen]
        by_cases hk : k ∈ seen
        · simp [hk]
        · have hne : (claveUnica q == k) = false := by
            simp only [beq_eq_false_iff_ne, ne_eq]
            intro h; exact hk (h ▸ hq)
          simp [hk, hne]
      · rw [show dedupAux seen (q :: rest)
            = q :: dedupAux (claveUnica q :: seen) rest by simp [dedupAux, hq],
          List.countP_cons, ih (claveUnica q :: seen)]
        by_cases hqk : claveUnica q = k
        · subst hqk
          simp [hq, List.mem_cons]
        · have hne : (claveUnica q == k) = false := by
            simp only [beq_eq_false_iff_ne, ne_eq]; exact hqk
          have hmem : (k ∈ claveUnica q :: seen) = (k ∈ seen) := by
            simp only [List.mem_cons, eq_comm (a := k)]
            simp [hqk]
          simp [hmem, hne]

/-- First occurrence wins: when a key occurs in the left part of a
concatenation, every kept entry with that key comes from the left part. -/
theorem dedupAux_append_left (k : String) (l1 : List PlacaInfo) :
    ∀ (seen : List String) (l2 : List PlacaInfo), k ∉ seen →
    (∃ a ∈ l1, claveUnica a = k) →
    ∀ p ∈ dedupAux seen (l1 ++ l2), claveUnica p = k → p ∈ l1 := by
  induction l1 with
  | nil =>
      rintro seen l2 hk ⟨a, ha, _⟩
      exact absurd ha (List.not_mem_nil a)
  | cons q l1' ih =>
      rintro seen l2 hk ⟨a, ha, hak⟩ p hp hpk
      rw [List.cons_append] at hp
      by_cases hq : claveUnica q ∈ seen
      · simp only [dedupAux, if_pos hq] at hp
        have ha' : a ∈ l1' := by
          rcases List.mem_cons.mp ha with h | h
          · exact absurd (hak ▸ (h ▸ hq)) hk
          · exact h
        exact List.mem_cons_of_mem _ (ih seen l2 hk ⟨a, ha', hak⟩ p hp hpk)
      · simp only [dedupAux, if_neg hq, List.mem_cons] at hp
        rcases hp with h | h
        · exact h ▸ List.mem_cons_self _ _
        · by_cases hqk : claveUnica q = k
          · have hnot := dedupAux_key_not_seen _ _ _ h
            rw [hpk, ← hqk] at hnot
            exact absurd (List.mem_cons_self _ _) hnot
          · have hk' : k ∉ claveUnica q :: seen := by
              intro hmem
              rcases List.mem_cons.mp hmem with h1 | h1
              · exact hqk h1.symm
              · exact hk h1
            have ha' : a ∈ l1' := by
              rcases List.mem_cons.mp ha with h1 | h1
              · exact absurd (h1 ▸ hak) hqk
              · exact h1
            exact List.mem_cons_of_mem _ (ih _ l2 hk' ⟨a, ha', hak⟩ p h hpk)

/-- Inserting into a sorted list permutes consing. -/
theorem insertLe_perm (le : α → α → Bool) (a : α) (l : List α) :
    (insertLe le a l).Perm (a :: l) := by
  induction l with
  | nil => simp [insertLe]
  | cons b rest ih =>
      by_cases h : le a b
      · simp [insertLe, h]
      · simp only [insertLe, if_neg h]
        exact (ih.cons b).trans (List.Perm.swap a b rest)

/-- The insertion sort permutes its input. -/
theorem sortLe_perm (le : α → α → Bool) (l : List α) : (sortLe le l).Perm l := by
  induction l with
  | nil => simp [sortLe]
  | cons a rest ih => exact (insertLe_perm le a (sortLe le rest)).trans (ih.cons a)

/-- C5: the plate merge is idempotent under duplicate input: for every pair
of source lists and every composite key occurring in them, exactly one entry
with that key reaches the final roster, and when the key occurs in Source A
(the DB-qualified list, concatenated first), the surviving entry comes from
Source A. -/
theorem C5_plate_merge_dedup (bd ext : List PlacaInfo) (k : String)
    (hex : ∃ p ∈ bd ++ ext, claveUnica p = k) :
    (placasRoster bd ext).countP (fun p => claveUnica p == k) = 1
    ∧ (∀ a ∈ bd, claveUnica a = k →
        ∀ p ∈ placasRoster bd ext, claveUnica p = k → p ∈ bd) := by
  have hperm := sortLe_perm placaLeB (combinar_placas bd ext)
  constructor
  · show (sortLe placaLeB (combinar_placas bd ext)).countP _ = 1
    rw [hperm.countP_eq]
    show (dedupAux [] (bd ++ ext)).countP _ = 1
    rw [dedupAux_countP]
    rcases hex with ⟨p, hp, hpk⟩
    have hany : (bd ++ ext).any (fun p => claveUnica p == k) = true :=
      List.any_eq_true.2 ⟨p, hp, by simp [hpk]⟩
    simp [hany]
  · intro a ha hak p hp hpk
    have hp' : p ∈ dedupAux [] (bd ++ ext) := hperm.mem_iff.mp hp
    exact dedupAux_append_left k bd [] ext (List.not_mem_nil k) ⟨a, ha, hak⟩ p hp' hpk

/-- Witness for C5: with the key "AAA_1" duplicated inside Source A and
repeated (lower-case) in Source B, the roster keeps exactly one entry for it
and that entry is the Source-A one. -/
theorem C5_plate_merge_dedup_witness :
    (placasRoster bdC5 extC5).countP (fun p => claveUnica p == "AAA_1") = 1
    ∧ (⟨"1", "AAA", 0⟩ : PlacaInfo) ∈ bdC5 := by
  have h := C5_plate_merge_dedup bdC5 extC5 "AAA_1"
    ⟨⟨"1", "AAA", 0⟩, by decide, by decide⟩
  exact ⟨h.1, h.2 ⟨"1", "AAA", 0⟩ (by decide) (by decide) ⟨"1", "AAA", 0⟩
    (by decide) (by decide)⟩

/-- C6 counterexample: the claim says an out-of-range match is rejected and
the NEXT pattern is tried, in both extractors.  In the file name
"01_02 Programa_SD_5_13_2025_.xlsm" the SD pattern matches with month 13;
under the claimed behaviour the generic pattern would then yield day 01 /
month 02, i.e. the result ("02", "01"), but the code falls back to the
current date ("10", "12") instead.  And the availability extractor applies
no range validation at all: it accepts day 99 outright. -/
theorem C6_counterexample :
    extract_date_from_filename ("10", "12") "01_02 Programa_SD_5_13_2025_.xlsm" = ("10", "12")
    ∧ ("10", "12") ≠ ("02", "01")
    ∧ extract_date_from_input_file "Programa_SD_99_05_2025_x.xlsx" = some ("05", "99") :=
  ⟨rfl, by decide, rfl⟩

/-- C6 amended: in both extractors the three patterns are tried in the
stated order with the first match winning and day/month zero-padded to two
digits.  The range validation exists only in the main-manifest extractor and
runs once, on the first pattern that matched: an out-of-range match falls
back to the current date directly, without trying later patterns.  The
availability extractor applies no range validation and yields no date
(`None, None`) when no pattern matches, rather than the current date. -/
theorem C6_amended_date_extraction (now : String × String) (fileName : String) :
    (findFirstDate fileName = none →
      extract_date_from_filename now fileName = now
      ∧ extract_date_from_input_file fileName = none)
    ∧ (∀ d m, findFirstDate fileName = some (d, m) →
      extract_date_from_input_file fileName = some (zfill2 m, zfill2 d)
      ∧ extract_date_from_filename now fileName =
          (if dateOkB (strToNat (zfill2 d)) (strToNat (zfill2 m))
           then (zfill2 m, zfill2 d) else now))
    ∧ (∀ dm, searchSD fileName = some dm → findFirstDate fileName = some dm)
    ∧ (searchSD fileName = none →
        ∀ dm, searchCB fileName = some dm → findFirstDate fileName = some dm)
    ∧ (searchSD fileName = none → searchCB fileName = none →
        findFirstDate fileName = searchGeneric fileName)
    ∧ extract_date_from_filename now "Programa_SD_5_7_2025_x.xlsx" = ("07", "05")
    ∧ extract_date_from_filename now "Envíos CBs 19-06.xlsx" = ("06", "19")
    ∧ extract_date_from_filename now "Programa Beer_28_04.xlsm" = ("04", "28") := by
  refine ⟨?_, ?_, ?_, ?_, ?_, rfl, rfl, rfl⟩
  · intro h
    constructor
    · simp [extract_date_from_filename, h]
    · simp [extract_date_from_input_file, h]
  · intro d m h
    constructor
    · simp [extract_date_from_input_file, h]
    · simp [extract_date_from_filename, h]
  · intro dm h
    simp [findFirstDate, h]
  · intro h1 dm h2
    simp [findFirstDate, h1, h2]
  · intro h1 h2
    simp [findFirstDate, h1, h2]

/-- Witness for C6 amended, at a valid SD-pattern name and a digit-free
name. -/
theorem C6_amended_date_extraction_witness :
    extract_date_from_input_file "Programa_SD_9_8_2025_" = some (zfill2 "8", zfill2 "9")
    ∧ extract_date_from_filename ("10", "12") "Programa_SD_9_8_2025_" =
        (if dateOkB (strToNat (zfill2 "9")) (strToNat (zfill2 "8"))
         then (zfill2 "8", zfill2 "9") else ("10", "12"))
    ∧ extract_date_from_filename ("10", "12") "nodigits.xlsx" = ("10", "12") := by
  have h := C6_amended_date_extraction ("10", "12") "Programa_SD_9_8_2025_"
  have h2 := C6_amended_date_extraction ("10", "12") "nodigits.xlsx"
  have hfd : findFirstDate "Programa_SD_9_8_2025_" = some ("9", "8") := by decide
  have hnone : findFirstDate "nodigits.xlsx" = none := by decide
  exact ⟨(h.2.1 "9" "8" hfd).1, (h.2.1 "9" "8" hfd).2, (h2.1 hnone).1⟩

/-- C7 counterexample: the claim computes bultos as `rate * pallet_count`
truncated to integer, but the code truncates each factor separately:
with rate 5/2 and 3 pallets the code yields `int(5/2) * int(3) = 6` while
the claim demands `int(5/2 * 3) = 7`.  The claim also takes any supplied
primary rate at face value, but the code treats a stored rate of 0 as
absent: with primary hectoliter rate 0 and secondary rate 2 the code
resolves 2 instead of the claimed `round(0 * 1, 4) = 0`. -/
theorem C7_counterexample :
    get_bultos dbC7 5 3 = 6
    ∧ pyTrunc ((5/2 : ℚ) * 3) = 7
    ∧ (6 : Int) ≠ 7
    ∧ get_hectolitros dbC7 7 1 = 2
    ∧ round4 ((0 : ℚ) * 1) = 0
    ∧ (2 : ℚ) ≠ 0 := by
  refine ⟨?_, ?_, by decide, ?_, ?_, by norm_num⟩
  · norm_num [get_bultos, lookupTruthy, dbC7, dbNull, pyTrunc]
  · norm_num [pyTrunc]
  · norm_num [get_hectolitros, lookupTruthy, dbC7, dbNull, round4, round_eq]
  · norm_num [round4]

/-- C7 amended: when the primary table supplies a NONZERO per-pallet rate
`r`, hectoliters resolve to `round(r * n, 4)` and bultos to
`int(r) * int(n)` (each factor truncated separately); a zero or absent
primary rate falls through to the secondary table with the same arithmetic;
when both tables are absent or zero the result is 0. -/
theorem C7_amended_volume_resolution (db : DB) (code : Int) (n : ℚ) :
    (∀ r, db.dadosHlPorPallet code = some r → r ≠ 0 →
      get_hectolitros db code n = round4 (r * n))
    ∧ ((db.dadosHlPorPallet code = none ∨ db.dadosHlPorPallet code = some 0) →
      ∀ r, db.envasesHlXPallet code = some r → r ≠ 0 →
      get_hectolitros db code n = round4 (r * n))
    ∧ ((db.dadosHlPorPallet code = none ∨ db.dadosHlPorPallet code = some 0) →
      (db.envasesHlXPallet code = none ∨ db.envasesHlXPallet code = some 0) →
      get_hectolitros db code n = 0)
    ∧ (∀ r, db.dadosBultosXPallet code = some r → r ≠ 0 →
      get_bultos db code n = pyTrunc r * pyTrunc n)
    ∧ ((db.dadosBultosXPallet code = none ∨ db.dadosBultosXPallet code = some 0) →
      ∀ r, db.envasesBultosXPallet code = some r → r ≠ 0 →
      get_bultos db code n = pyTrunc r * pyTrunc n)
    ∧ ((db.dadosBultosXPallet code = none ∨ db.dadosBultosXPallet code = some 0) →
      (db.envasesBultosXPallet code = none ∨ db.envasesBultosXPallet code = some 0) →
      get_bultos db code n = 0) := by
  refine ⟨?_, ?_, ?_, ?_, ?_, ?_⟩
  · intro r hr hr0
    simp [get_hectolitros, lookupTruthy, hr, hr0]
  · rintro (h | h) r hr hr0 <;> simp [get_hectolitros, lookupTruthy, h, hr, hr0]
  · rintro (h | h) (h2 | h2) <;> simp [get_hectolitros, lookupTruthy, h, h2]
  · intro r hr hr0
    simp [get_bultos, lookupTruthy, hr, hr0]
  · rintro (h | h) r hr hr0 <;> simp [get_bultos, lookupTruthy, h, hr, hr0]
  · rintro (h | h) (h2 | h2) <;> simp [get_bultos, lookupTruthy, h, h2]

/-- Witness for C7 amended at the nonzero fractional primary rates stored
for code 1 in the fixture. -/
theorem C7_amended_volume_resolution_witness :
    get_hectolitros dbC7 1 3 = round4 ((7/2 : ℚ) * 3)
    ∧ get_bultos dbC7 1 3 = pyTrunc (7/2) * pyTrunc 3 := by
  have h := C7_amended_volume_resolution dbC7 1 3
  exact ⟨h.1 (7/2) (by norm_num [dbC7, dbNull]) (by norm_num),
    h.2.2.2.1 (7/2) (by norm_num [dbC7, dbNull]) (by norm_num)⟩

/-- A successful column extraction recovers every accessed column. -/
theorem extractCols_ok (row : Row) (c1 c2 c3 c4 c5 c6 : Cell)
    (h : extractCols row = Except.ok (c1, c2, c3, c4, c5, c6)) :
    row.codProd = some c1 ∧ row.pallets = some c2 ∧ row.pesoTotal = some c3
    ∧ row.codOrigen = some c4 ∧ row.codDestino = some c5
    ∧ row.operadorLogistico = some c6 := by
  cases hcp : row.codProd <;> cases hpl : row.pallets <;> cases hpe : row.pesoTotal <;>
    cases hor : row.codOrigen <;> cases hde : row.codDestino <;>
    cases hop : row.operadorLogistico <;> simp_all [extractCols]

/-- C8: any row whose parsed product code equals the reserved pallet code
has the Quantity of its third Detail record forced to the fixed pallet
quantity, irrespective of the stated pallet count (the first three emitted
records carry no quantity at all). -/
theorem C8_pallet_quantity_override (db : DB) (md5h : String → Nat) (dates : DatesS)
    (row : Row) (index : Nat) (shipNum : Int) (allShipments : List Row)
    (store : Option Nat) (stats : Stats) (out : List Rec × Option Nat × Stats)
    (c : Cell) (hc : row.codProd = some c)
    (hcode : safe_int_conversion c 0 = PALLET_PRODUCT_CODE)
    (hok : process_record db md5h dates row index shipNum allShipments store stats
      = Except.ok out) :
    out.1.map Rec.quantity
      = [Cell.str "", Cell.str "", Cell.str "", Cell.num (PALLET_QUANTITY : ℚ)] := by
  match hcols : extractCols row with
  | Except.error e =>
      rw [process_record, hcols] at hok
      exact absurd hok (by simp)
  | Except.ok (c1, c2, c3, c4, c5, c6) =>
      rw [process_record, hcols] at hok
      injection hok with h
      obtain ⟨h1, -, -, -, -, -⟩ := extractCols_ok row c1 c2 c3 c4 c5 c6 hcols
      have hc1 : c1 = c := by
        rw [hc] at h1
        exact (Option.some_inj.mp h1).symm
      subst hc1
      rw [← h]
      simp [emitRecord, emptyDetail, hcode]

/-- Witness for C8 at `rowC8` (code 1100, 5 stated pallets). -/
theorem C8_pallet_quantity_override_witness :
    outC8.1.map Rec.quantity
      = [Cell.str "", Cell.str "", Cell.str "", Cell.num (PALLET_QUANTITY : ℚ)] :=
  C8_pallet_quantity_override dbNull (fun _ => 0) {} rowC8 0 0 [rowC8] none initStats
    outC8 (Cell.num 1100) rfl (by decide) rfl

/-- C10: on a pallet-code row the third Detail record's Hectolitros and
Bultos are computed from the ORIGINAL stated pallet count, while its
Quantity and the weight contribution `quantity * 45` use the overridden
constant 24 — the quantity override runs after the volume lookups but before
the weight computation. -/
theorem C10_pallet_volume_from_stated_count (db : DB) (md5h : String → Nat)
    (dates : DatesS) (row : Row) (index : Nat) (shipNum : Int)
    (allShipments : List Row) (store : Option Nat) (stats : Stats)
    (out : List Rec × Option Nat × Stats) (c cp cw : Cell)
    (hc : row.codProd = some c)
    (hcode : safe_int_conversion c 0 = PALLET_PRODUCT_CODE)
    (hp : row.pallets = some cp) (hw : row.pesoTotal = some cw)
    (hok : process_record db md5h dates row index shipNum allShipments store stats
      = Except.ok out) :
    (out.1.map Rec.quantity)[3]? = some (Cell.num (PALLET_QUANTITY : ℚ))
    ∧ (out.1.map Rec.hectolitros)[3]?
        = some (Cell.num (get_hectolitros db PALLET_PRODUCT_CODE
            ((safe_int_conversion cp 1 : Int) : ℚ)))
    ∧ (out.1.map Rec.bultos)[3]?
        = some (Cell.num ((get_bultos db PALLET_PRODUCT_CODE
            ((safe_int_conversion cp 1 : Int) : ℚ) : Int) : ℚ))
    ∧ (out.1.map Rec.weight)[3]?
        = some (Cell.num (safe_numeric_conversion cw 0
            + (PALLET_QUANTITY : ℚ) * (WEIGHT_PER_UNIT : ℚ))) := by
  match hcols : extractCols row with
  | Except.error e =>
      rw [process_record, hcols] at hok
      exact absurd hok (by simp)
  | Except.ok (c1, c2, c3, c4, c5, c6) =>
      rw [process_record, hcols] at hok
      injection hok with h
      obtain ⟨h1, h2, h3, -, -, -⟩ := extractCols_ok row c1 c2 c3 c4 c5 c6 hcols
      have hc1 : c1 = c := by rw [hc] at h1; exact (Option.some_inj.mp h1).symm
      have hc2 : c2 = cp := by rw [hp] at h2; exact (Option.some_inj.mp h2).symm
      have hc3 : c3 = cw := by rw [hw] at h3; exact (Option.some_inj.mp h3).symm
      subst hc1 hc2 hc3
      rw [← h]
      refine ⟨?_, ?_, ?_, ?_⟩ <;>
        simp [emitRecord, emptyDetail, hcode, process_weight]

/-- Witness for C10 at `rowC10` (code 1100, 7 stated pallets, rates stored
for code 1100). -/
theorem C10_pallet_volume_from_stated_count_witness :
    (outC10.1.map Rec.quantity)[3]? = some (Cell.num (PALLET_QUANTITY : ℚ))
    ∧ (outC10.1.map Rec.hectolitros)[3]?
        = some (Cell.num (get_hectolitros dbC10 PALLET_PRODUCT_CODE
            ((safe_int_conversion (Cell.num 7) 1 : Int) : ℚ)))
    ∧ (outC10.1.map Rec.bultos)[3]?
        = some (Cell.num ((get_bultos dbC10 PALLET_PRODUCT_CODE
            ((safe_int_conversion (Cell.num 7) 1 : Int) : ℚ) : Int) : ℚ))
    ∧ (outC10.1.map Rec.weight)[3]?
        = some (Cell.num (safe_numeric_conversion (Cell.num 100) 0
            + (PALLET_QUANTITY : ℚ) * (WEIGHT_PER_UNIT : ℚ))) :=
  C10_pallet_volume_from_stated_count dbC10 (fun _ => 0) {} rowC10 2 0 [rowC10]
    (some 11111) initStats outC10 (Cell.num 1100) (Cell.num 7) (Cell.num 100)
    rfl (by decide) rfl rfl rfl

/-- C9: when a row's processing raises, the run records exactly one entry in
the error list, adds no records from that row to the accumulated set, and
continues with the remaining rows from the same sequence state. -/
theorem C9_row_failure_isolated (db : DB) (md5h : String → Nat) (dates : DatesS)
    (allShipments : List Row) (shipNum : Int) (rest : List Row) (r : Row)
    (i : Nat) (store : Option Nat) (stats : Stats) (data : List Rec)
    (e : String) (stats' : Stats)
    (hfail : process_record db md5h dates r i shipNum allShipments store stats
      = Except.error (e, stats')) :
    stats'.errors = stats.errors ++ ["Error registro " ++ toString i ++ ": " ++ e]
    ∧ processLoop db md5h dates allShipments shipNum (r :: rest) i store stats data
      = processLoop db md5h dates allShipments shipNum rest (i + 1) store stats' data := by
  constructor
  · rw [process_record] at hfail
    match hcols : extractCols r with
    | Except.ok cols =>
        rw [hcols] at hfail
        exact absurd hfail (by simp)
    | Except.error e0 =>
        rw [hcols] at hfail
        injection hfail with h
        have he : e0 = e := congrArg Prod.fst h
        have hs : addError stats ("Error registro " ++ toString i ++ ": " ++ e0) = stats' :=
          congrArg Prod.snd h
        subst he
        rw [← hs]
        simp [addError]
  · simp [processLoop, hfail]

/-- Witness for C9: the empty row `rowC9` fails its first column access and
the loop steps over it without touching the accumulated records. -/
theorem C9_row_failure_isolated_witness :
    (addError initStats ("Error registro " ++ toString 0 ++ ": " ++ "Cód. Prod")).errors
      = initStats.errors ++ ["Error registro " ++ toString 0 ++ ": " ++ "Cód. Prod"]
    ∧ processLoop dbNull (fun _ => 0) {} rowsC1 0 (rowC9 :: []) 0 none initStats []
      = processLoop dbNull (fun _ => 0) {} rowsC1 0 [] (0 + 1) none
          (addError initStats ("Error registro " ++ toString 0 ++ ": " ++ "Cód. Prod")) [] :=
  C9_row_failure_isolated dbNull (fun _ => 0) {} rowsC1 0 [] rowC9 0 none initStats []
    "Cód. Prod" (addError initStats ("Error registro " ++ toString 0 ++ ": " ++ "Cód. Prod")) rfl

/-- A successful emission increments the header counter by one and the
detail counter by three, and its record group holds exactly one `H` record
and three `D` records. -/
theorem emitRecord_effects (db : DB) (md5h : String → Nat) (dates : DatesS)
    (row : Row) (index : Nat) (allShipments : List Row) (store : Option Nat)
    (stats : Stats) (cols : Cell × Cell × Cell × Cell × Cell × Cell) :
    (emitRecord db md5h dates row index allShipments store stats cols).2.2.header_records
      = stats.header_records + 1
    ∧ (emitRecord db md5h dates row index allShipments store stats cols).2.2.detail_records
      = stats.detail_records + 3
    ∧ (emitRecord db md5h dates row index allShipments store stats cols).1.countP
        (fun r => r.type == "H") = 1
    ∧ (emitRecord db md5h dates row index allShipments store stats cols).1.countP
        (fun r => r.type == "D") = 3 := by
  obtain ⟨c1, c2, c3, c4, c5, c6⟩ := cols
  refine ⟨?_, ?_, ?_, ?_⟩ <;> simp [emitRecord, emptyDetail, List.countP_cons]

/-- Loop invariant of the pipeline: the detail counter stays three times the
header counter, and both counters stay in step with the `H`/`D` record
counts of the accumulated set. -/
theorem processLoop_invariant (db : DB) (md5h : String → Nat) (dates : DatesS)
    (allShipments : List Row) (shipNum : Int) :
    ∀ (rows : List Row) (i : Nat) (store : Option Nat) (stats : Stats) (data : List Rec),
    stats.detail_records = 3 * stats.header_records →
    data.countP (fun r => r.type == "H") = stats.header_records →
    data.countP (fun r => r.type == "D") = stats.detail_records →
    (processLoop db md5h dates allShipments shipNum rows i store stats data).2.2.detail_records
      = 3 * (processLoop db md5h dates allShipments shipNum rows i store stats data).2.2.header_records
    ∧ (processLoop db md5h dates allShipments shipNum rows i store stats data).1.countP
        (fun r => r.type == "H")
      = (processLoop db md5h dates allShipments shipNum rows i store stats data).2.2.header_records
    ∧ (processLoop db md5h dates allShipments shipNum rows i store stats data).1.countP
        (fun r => r.type == "D")
      = (processLoop db md5h dates allShipments shipNum rows i store stats data).2.2.detail_records := by
  intro rows
  induction rows with
  | nil =>
      intro i store stats data hratio hH hD
      simp only [processLoop]
      exact ⟨hratio, hH, hD⟩
  | cons r rest ih =>
      intro i store stats data hratio hH hD
      cases hpr : process_record db md5h dates r i shipNum allShipments store stats with
      | ok val =>
          obtain ⟨recs, store', stats'⟩ := val
          have hstep : processLoop db md5h dates allShipments shipNum (r :: rest) i store stats data
              = processLoop db md5h dates allShipments shipNum rest (i + 1) store' stats' (data ++ recs) := by
            simp [processLoop, hpr]
          have hfacts : stats'.header_records = stats.header_records + 1
              ∧ stats'.detail_records = stats.detail_records + 3
              ∧ recs.countP (fun r => r.type == "H") = 1
              ∧ recs.countP (fun r => r.type == "D") = 3 := by
            rw [process_record] at hpr
            match hcols : extractCols r with
            | Except.error e =>
                rw [hcols] at hpr
                exact absurd hpr (by simp)
            | Except.ok cols =>
                rw [hcols] at hpr
                injection hpr with h
                obtain ⟨e1, e2, e3, e4⟩ :=
                  emitRecord_effects db md5h dates r i allShipments store stats cols
                rw [h] at e1 e2 e3 e4
                exact ⟨e1, e2, e3, e4⟩
          obtain ⟨f1, f2, f3, f4⟩ := hfacts
          rw [hstep]
          refine ih (i + 1) store' stats' (data ++ recs) ?_ ?_ ?_
          · omega
          · rw [List.countP_append, hH, f3, f1]
          · rw [List.countP_append, hD, f4, f2]
      | error val =>
          obtain ⟨e, stats'⟩ := val
          have hstep : processLoop db md5h dates allShipments shipNum (r :: rest) i store stats data
              = processLoop db md5h dates allShipments shipNum rest (i + 1) store stats' data := by
            simp [processLoop, hpr]
          have hfacts : stats'.header_records = stats.header_records
              ∧ stats'.detail_records = stats.detail_records := by
            rw [process_record] at hpr
            match hcols : extractCols r with
            | Except.ok cols =>
                rw [hcols] at hpr
                exact absurd hpr (by simp)
            | Except.error e0 =>
                rw [hcols] at hpr
                injection hpr with h
                have hs : addError stats ("Error registro " ++ toString i ++ ": " ++ e0) = stats' :=
                  congrArg Prod.snd h
                rw [← hs]
                simp [addError]
          obtain ⟨f1, f2⟩ := hfacts
          rw [hstep]
          exact ih (i + 1) store stats' data (by omega) (by rw [hH, f1]) (by rw [hD, f2])

/-- C1: over any non-empty manifest the accumulated statistics satisfy
`detail_records = 3 * header_records`, and the accumulated record set itself
holds exactly three `D` records per `H` record — each successful row emits
one header and three details, and a failed row emits nothing. -/
theorem C1_detail_header_ratio (db : DB) (md5h : String → Nat) (dates : DatesS)
    (shipNum : Int) (rows : List Row) (store : Option Nat) (_hne : rows ≠ []) :
    (process_all_data db md5h dates shipNum rows store).2.2.detail_records
      = 3 * (process_all_data db md5h dates shipNum rows store).2.2.header_records
    ∧ (process_all_data db md5h dates shipNum rows store).1.countP
        (fun r => r.type == "D")
      = 3 * (process_all_data db md5h dates shipNum rows store).1.countP
        (fun r => r.type == "H") := by
  obtain ⟨h1, h2, h3⟩ := processLoop_invariant db md5h dates rows shipNum rows 0 store
    initStats [] (by simp [initStats]) (by simp [initStats]) (by simp [initStats])
  simp only [process_all_data]
  exact ⟨h1, by rw [h3, h2, h1]⟩

/-- Witness for C1 at the two-row manifest `rowsC1` (one processable row,
one failing row). -/
theorem C1_detail_header_ratio_witness :
    (process_all_data dbNull (fun _ => 0) {} 0 rowsC1 none).2.2.detail_records
      = 3 * (process_all_data dbNull (fun _ => 0) {} 0 rowsC1 none).2.2.header_records
    ∧ (process_all_data dbNull (fun _ => 0) {} 0 rowsC1 none).1.countP
        (fun r => r.type == "D")
      = 3 * (process_all_data dbNull (fun _ => 0) {} 0 rowsC1 none).1.countP
        (fun r => r.type == "H") :=
  C1_detail_header_ratio dbNull (fun _ => 0) {} 0 rowsC1 none (by simp [rowsC1])
